import Mathlib

/-!
Verification of the `AwsLambdaFunction` component (src/unnamed/part_000).

The component manages a single cloud function resource: it constructs a
desired-state instance from inputs (recomputing a content fingerprint of the
code directory), decides whether the remote resource must be replaced,
deployed or left alone (`shouldDeploy`), drives the provider calls
(`deploy` via `createLambda` / `updateLambda`) and removes the resource
(`remove`), tolerating a "Function not found" failure.

External collaborators (the file system, the `folder-hash` fingerprinter,
`packDir`, and the AWS Lambda SDK client) are modelled at their interface
boundary: the file system is a map from a directory path to its files, the
fingerprinter returns the content of the directory minus the excluded
folders, the archiver returns the files it was pointed at plus the shim
entries, and the Lambda client is an oracle assigning a response to each
call's parameters.  JavaScript `undefined` dereferences (TypeError) are
modelled with `Except.error`.
-/

namespace AwsLambda

/-- A file inside a code directory: the folder segments leading to it, its
base name and its content.  This is the unit over which the external
fingerprinter and archiver operate. -/
structure SrcFile where
  dirs : List String
  name : String
  content : String
deriving DecidableEq, Repr

/-- The fingerprint of a directory is modelled content-addressed: it is the
(filtered) list of files itself, so identical contents give identical
fingerprints and any content difference changes it. -/
abbrev Hash := List SrcFile

/-- The ambient file system: maps a directory path to the files below it. -/
def FileSystem := String → List SrcFile

/-- `inputs.code` is either a single directory path or a list whose first
element is the directory and whose remaining elements are auxiliary shim
files (`this.code[0]` is the dir, the rest are shims). -/
inductive CodeLoc where
  | single (dir : String)
  | multi (dir : String) (aux : List String)
deriving DecidableEq, Repr

/-- The archive produced by `packDir`: the files found under the input
directory plus the shim entries layered in. -/
structure Zip where
  files : List SrcFile
  shims : List String
deriving DecidableEq, Repr

/-- A resolved IAM role reference: `roleName` and the remote-assigned `arn`. -/
structure Role where
  roleName : String
  arn : String
deriving DecidableEq, Repr

/-- The inputs handed to `construct`.  `role` is optional (JS `undefined`
when absent; `define` would synthesize one later). -/
structure Inputs where
  role : Option Role
  functionName : String
  functionDescription : String
  handler : String
  code : CodeLoc
  runtime : String
  memorySize : Nat
  timeout : Nat
  environment : List (String × String)
  tags : List (String × String)
deriving DecidableEq, Repr

/-- The component instance after `construct`: the copied inputs plus the
computed `hash`; `arn` is set only by `hydrate` or `deploy`, `zip` only by
`pack` (both JS `undefined` before that, hence `Option`). -/
structure Instance where
  role : Option Role
  functionName : String
  functionDescription : String
  handler : String
  code : CodeLoc
  runtime : String
  memorySize : Nat
  timeout : Nat
  environment : List (String × String)
  tags : List (String × String)
  hash : Hash
  arn : Option String
  zip : Option Zip
deriving DecidableEq, Repr

/-- The prior instance handed to `hydrate` / `shouldDeploy` / `deploy`:
the last-applied state with the same normalized fields, the remote `arn`,
and the previously resolved role (possibly missing, as nothing in
`shouldDeploy` guards its access). -/
structure PrevInstance where
  functionName : String
  functionDescription : String
  handler : String
  code : CodeLoc
  runtime : String
  memorySize : Nat
  timeout : Nat
  environment : List (String × String)
  tags : List (String × String)
  hash : Hash
  arn : String
  role : Option Role
deriving DecidableEq, Repr

/-- The normalized configuration record built inside `shouldDeploy`.
`environment` is commented out in the source and hence absent here. -/
structure Config where
  functionName : String
  functionDescription : String
  handler : String
  code : CodeLoc
  runtime : String
  memorySize : Nat
  timeout : Nat
  hash : Hash
  tags : List (String × String)
deriving DecidableEq, Repr

/-- Model of the external `folder-hash` collaborator
(`hashElement(path, { folders: { exclude } })`, spec interface
`fingerprintDirectory(path, ignore)`): a deterministic content fingerprint
of the directory that ignores every file lying under a folder whose name is
in the exclude list. -/
def hashElement (fs : FileSystem) (path : String) (excludeFolders : List String) : Hash :=
  (fs path).filter (fun f => f.dirs.all (fun d => !(excludeFolders.contains d)))

/-- The directory `construct` hashes: `this.code`, or `this.code[0]` when
the code location is an array. -/
def folderToHash : CodeLoc → String
  | CodeLoc.single dir => dir
  | CodeLoc.multi dir _ => dir

/-- Model of the external `packDir` collaborator (spec interface
`archiveDirectory(path, auxFiles)`): archives everything under the input
directory together with the shim entries.  The call site passes no ignore
set, and the interface takes none. -/
def packDir (fs : FileSystem) (inputDirPath : String) (shims : List String) : Zip :=
  { files := fs inputDirPath, shims := shims }

/-- `pack()`: `inputDirPath = this.code` (or `this.code[0]` with the rest of
the array as shims), archive via `packDir`, return the bytes.  The unique
temporary output path is an I/O detail elided here. -/
def pack (fs : FileSystem) (this : Instance) : Zip :=
  match this.code with
  | CodeLoc.single dir => packDir fs dir []
  | CodeLoc.multi dir aux => packDir fs dir aux

/-- `construct(inputs, context)`: copies the inputs onto the instance and
recomputes `this.hash` from the current code location with
`folders.exclude = [ "node_modules" ]`.  `resolve` on already-resolved plain
values is the identity and is elided. -/
def construct (fs : FileSystem) (inputs : Inputs) : Instance :=
  { role := inputs.role
    functionName := inputs.functionName
    functionDescription := inputs.functionDescription
    handler := inputs.handler
    code := inputs.code
    runtime := inputs.runtime
    memorySize := inputs.memorySize
    timeout := inputs.timeout
    environment := inputs.environment
    tags := inputs.tags
    hash := hashElement fs (folderToHash inputs.code) ["node_modules"]
    arn := none
    zip := none }

/-- `hydrate(prevInstance)`: restores only `this.arn` from the prior
instance (`this.arn = get("arn", prevInstance)`); every other field,
the fingerprint included, is left as `construct` produced it.  The
framework `super.hydrate` is outside this component. -/
def hydrate (this : Instance) (prevInstance : PrevInstance) : Instance :=
  { this with arn := some prevInstance.arn }

/-- `getId()`: the remote-assigned identifier. -/
def getId (this : Instance) : Option String :=
  this.arn

/-- The `currentConfig` record of `shouldDeploy` (environment deliberately
left out, as in the source). -/
def currentConfigOf (this : Instance) : Config :=
  { functionName := this.functionName
    functionDescription := this.functionDescription
    handler := this.handler
    code := this.code
    runtime := this.runtime
    memorySize := this.memorySize
    timeout := this.timeout
    hash := this.hash
    tags := this.tags }

/-- `pick(keys(currentConfig), prevInstance)`: the prior instance projected
onto the fields of the current config record. -/
def prevConfigOf (p : PrevInstance) : Config :=
  { functionName := p.functionName
    functionDescription := p.functionDescription
    handler := p.handler
    code := p.code
    runtime := p.runtime
    memorySize := p.memorySize
    timeout := p.timeout
    hash := p.hash
    tags := p.tags }

/-- `configChanged = not(equals(currentConfig, prevConfig))`.  With no prior
instance `prevConfig` is `{}`, which never deep-equals the 9-key
`currentConfig`, so the result is `true`. -/
def configChanged (this : Instance) (prev : Option PrevInstance) : Bool :=
  match prev with
  | some p => decide (currentConfigOf this ≠ prevConfigOf p)
  | none => true

/-- `roleChanged = prevInstance ? resolve(this.role).roleName !==
prevInstance.role.roleName : true`.  Both `.roleName` accesses are
unguarded: a missing role on either side is a TypeError, modelled as
`Except.error`.  `this.role` is evaluated first. -/
def roleChanged (this : Instance) (prev : Option PrevInstance) : Except String Bool :=
  match prev with
  | none => Except.ok true
  | some p =>
    match this.role with
    | none => Except.error "TypeError: roleName of undefined"
    | some r =>
      match p.role with
      | none => Except.error "TypeError: roleName of undefined"
      | some pr => Except.ok (r.roleName != pr.roleName)

/-- The three outcomes of `shouldDeploy`: the source returns the strings
`"replace"` or `"deploy"`, or falls through returning `undefined`, which the
framework reads as no-op. -/
inductive Decision where
  | replace
  | deploy
  | noOp
deriving DecidableEq, Repr

/-- `shouldDeploy(prevInstance)`: `roleChanged` is computed before the
branch (so its TypeError fires first), then
`if (prevInstance && prevInstance.functionName !== currentConfig.functionName)
return "replace"; else if (!prevInstance || configChanged || roleChanged)
return "deploy";` else fall through (no-op). -/
def shouldDeploy (this : Instance) (prev : Option PrevInstance) : Except String Decision := do
  let rc ← roleChanged this prev
  match prev with
  | some p =>
    if p.functionName ≠ (currentConfigOf this).functionName then
      pure Decision.replace
    else if configChanged this (some p) = true ∨ rc = true then
      pure Decision.deploy
    else
      pure Decision.noOp
  | none =>
    pure Decision.deploy

/-- The parameter record of `Lambda.createFunction`. -/
structure CreateParams where
  functionName : String
  zipFile : Option Zip
  description : String
  handler : String
  memorySize : Nat
  publish : Bool
  role : String
  runtime : String
  timeout : Nat
  environment : List (String × String)
deriving DecidableEq, Repr

/-- The parameter record of `Lambda.updateFunctionCode`. -/
structure UpdateCodeParams where
  functionName : String
  zipFile : Option Zip
  publish : Bool
deriving DecidableEq, Repr

/-- The parameter record of `Lambda.updateFunctionConfiguration`. -/
structure UpdateConfigParams where
  functionName : String
  description : String
  handler : String
  memorySize : Nat
  role : String
  runtime : String
  timeout : Nat
  environment : List (String × String)
deriving DecidableEq, Repr

/-- One outbound provider call, with the parameters it was issued with. -/
inductive LambdaCall where
  | createFunction (params : CreateParams)
  | updateFunctionCode (params : UpdateCodeParams)
  | updateFunctionConfiguration (params : UpdateConfigParams)
  | deleteFunction (functionName : String)
deriving DecidableEq, Repr

/-- The AWS Lambda SDK client, modelled as an oracle assigning each call a
response: the `FunctionArn` returned by `createFunction`,
`updateFunctionCode` and `updateFunctionConfiguration`, and the outcome of
`deleteFunction` (an error carries the provider message). -/
structure Lambda where
  createFunctionArn : CreateParams → String
  updateFunctionCodeArn : UpdateCodeParams → String
  updateFunctionConfigurationArn : UpdateConfigParams → String
  deleteFunctionResult : String → Except String Unit

/-- The `params` record `createLambda` builds (`Publish: true`,
`Role: role.arn`). -/
def createParamsOf (this : Instance) (role : Role) : CreateParams :=
  { functionName := this.functionName
    zipFile := this.zip
    description := this.functionDescription
    handler := this.handler
    memorySize := this.memorySize
    publish := true
    role := role.arn
    runtime := this.runtime
    timeout := this.timeout
    environment := this.environment }

/-- The `functionCodeParams` record `updateLambda` builds. -/
def updateCodeParamsOf (this : Instance) : UpdateCodeParams :=
  { functionName := this.functionName
    zipFile := this.zip
    publish := true }

/-- The `functionConfigParams` record `updateLambda` builds. -/
def updateConfigParamsOf (this : Instance) (role : Role) : UpdateConfigParams :=
  { functionName := this.functionName
    description := this.functionDescription
    handler := this.handler
    memorySize := this.memorySize
    role := role.arn
    runtime := this.runtime
    timeout := this.timeout
    environment := this.environment }

/-- `createLambda(Lambda, this)`: one `createFunction` call with the full
resource definition; returns `res.FunctionArn`.  `role.arn` on a missing
role is a TypeError. -/
def createLambda (L : Lambda) (this : Instance) : Except String (List LambdaCall × String) :=
  match this.role with
  | none => Except.error "TypeError: arn of undefined"
  | some role =>
    Except.ok ([LambdaCall.createFunction (createParamsOf this role)],
      L.createFunctionArn (createParamsOf this role))

/-- `updateLambda(Lambda, this)`: `updateFunctionCode` first, then
`updateFunctionConfiguration`, both against the same `FunctionName`;
returns the configuration call's `res.FunctionArn` (the code call's
response is discarded). -/
def updateLambda (L : Lambda) (this : Instance) : Except String (List LambdaCall × String) :=
  match this.role with
  | none => Except.error "TypeError: arn of undefined"
  | some role =>
    Except.ok
      ([LambdaCall.updateFunctionCode (updateCodeParamsOf this),
        LambdaCall.updateFunctionConfiguration (updateConfigParamsOf this role)],
       L.updateFunctionConfigurationArn (updateConfigParamsOf this role))

/-- `deleteLambda(Lambda, name)`: one `deleteFunction` call by name. -/
def deleteLambda (L : Lambda) (name : String) : Except String Unit :=
  L.deleteFunctionResult name

/-- The instance after `await this.pack(context)` has stored the archive
bytes on `this.zip`. -/
def packedOf (fs : FileSystem) (this : Instance) : Instance :=
  { this with zip := some (pack fs this) }

/-- `deploy(prevInstance, context)`: pack first, then
`if (!prevInstance || this.functionName !== prevInstance.functionName)`
create, else update; store the returned arn on the instance.  The result is
the updated instance together with the trace of provider calls issued. -/
def deploy (L : Lambda) (fs : FileSystem) (this : Instance) (prevInstance : Option PrevInstance) :
    Except String (Instance × List LambdaCall) := do
  let packed : Instance := packedOf fs this
  match prevInstance with
  | none =>
    let (calls, arn) ← createLambda L packed
    pure ({ packed with arn := some arn }, calls)
  | some p =>
    if this.functionName ≠ p.functionName then
      let (calls, arn) ← createLambda L packed
      pure ({ packed with arn := some arn }, calls)
    else
      let (calls, arn) ← updateLambda L packed
      pure ({ packed with arn := some arn }, calls)

/-- `bs` starts with `as` (character-by-character comparison). -/
def leadsWith : List Char → List Char → Bool
  | [], _ => true
  | _ :: _, [] => false
  | a :: as, b :: bs => a == b && leadsWith as bs

/-- `needle` occurs somewhere inside `s` (JS `String.includes`). -/
def subOccurs (needle : List Char) : List Char → Bool
  | [] => needle.isEmpty
  | c :: rest => leadsWith needle (c :: rest) || subOccurs needle rest

/-- JS `s.includes(needle)`. -/
def containsSub (needle s : String) : Bool :=
  subOccurs needle.data s.data

/-- `remove(context)`: try `deleteLambda`; a failure whose message includes
"Function not found" is swallowed, any other failure is wrapped
(`throw new Error(error)`) and re-raised. -/
def remove (L : Lambda) (this : Instance) : Except String Unit :=
  match deleteLambda L this.functionName with
  | Except.ok _ => Except.ok ()
  | Except.error msg =>
    if containsSub "Function not found" msg then Except.ok ()
    else Except.error ("Error: " ++ msg)

/-! Concrete sample data used by the witness theorems. -/

/-- A role for the current instance. -/
def roleA : Role := { roleName := "lambda-role", arn := "arn-role-1" }

/-- The same role name as `roleA` with a different remote identifier. -/
def roleA2 : Role := { roleName := "lambda-role", arn := "arn-role-9" }

/-- A role with a different name. -/
def roleB : Role := { roleName := "other-role", arn := "arn-role-2" }

/-- A file system whose single directory holds one source file and one file
inside a dependency cache. -/
def fs0 : FileSystem := fun _ =>
  [{ dirs := [], name := "index.js", content := "main" },
   { dirs := ["node_modules", "dep"], name := "d.js", content := "dep" }]

/-- Sample construction inputs. -/
def inputs0 : Inputs :=
  { role := some roleA
    functionName := "fn-a"
    functionDescription := "a function"
    handler := "index.main"
    code := CodeLoc.single "app"
    runtime := "nodejs8.10"
    memorySize := 512
    timeout := 30
    environment := [("KEY", "VALUE")]
    tags := [("team", "dev")] }

/-- The current instance built by `construct` from `inputs0`. -/
def inst0 : Instance := construct fs0 inputs0

/-- A prior instance identical to `inst0` in every normalized field, with a
role of the same name but a different remote identifier. -/
def prev0 : PrevInstance :=
  { functionName := "fn-a"
    functionDescription := "a function"
    handler := "index.main"
    code := CodeLoc.single "app"
    runtime := "nodejs8.10"
    memorySize := 512
    timeout := 30
    environment := [("KEY", "VALUE")]
    tags := [("team", "dev")]
    hash := hashElement fs0 "app" ["node_modules"]
    arn := "arn-1"
    role := some roleA2 }

/-- Like `prev0` but with a different function name and larger memory. -/
def prevB : PrevInstance :=
  { prev0 with functionName := "fn-b", memorySize := 1024 }

/-- Like `prev0` but with a different environment mapping. -/
def prevEnv : PrevInstance :=
  { prev0 with environment := [("KEY", "OTHER")] }

/-- Like `prev0` but with no role recorded. -/
def prevNoRole : PrevInstance :=
  { prev0 with role := none }

/-- A Lambda client whose delete always succeeds. -/
def lambdaOk : Lambda :=
  { createFunctionArn := fun _ => "arn-created"
    updateFunctionCodeArn := fun _ => "arn-code"
    updateFunctionConfigurationArn := fun _ => "arn-config"
    deleteFunctionResult := fun _ => Except.ok () }

/-- A Lambda client whose delete fails with a not-found message. -/
def lambdaNotFound : Lambda :=
  { lambdaOk with
    deleteFunctionResult := fun _ => Except.error "ResourceNotFoundException: Function not found: fn-a" }

/-- A Lambda client whose delete fails with an unrelated message. -/
def lambdaDenied : Lambda :=
  { lambdaOk with deleteFunctionResult := fun _ => Except.error "AccessDenied" }

/-! Helper lemmas shared by several results. -/

/-- With both roles present, `shouldDeploy` never faults and its decision
branch is exactly the source's if-chain. -/
theorem roleChanged_ok (this : Instance) (p : PrevInstance) (r pr : Role)
    (hc : this.role = some r) (hp : p.role = some pr) :
    roleChanged this (some p) = Except.ok (r.roleName != pr.roleName) := by
  simp [roleChanged, hc, hp]

/-- With identical normalized fields and identical role names the fall
through branch is reached and `shouldDeploy` is a no-op. -/
theorem shouldDeploy_noop_of_equal (this : Instance) (p : PrevInstance) (r pr : Role)
    (hc : this.role = some r) (hp : p.role = some pr)
    (h1 : p.functionName = this.functionName)
    (h2 : p.functionDescription = this.functionDescription)
    (h3 : p.handler = this.handler)
    (h4 : p.code = this.code)
    (h5 : p.runtime = this.runtime)
    (h6 : p.memorySize = this.memorySize)
    (h7 : p.timeout = this.timeout)
    (h8 : p.hash = this.hash)
    (h9 : p.tags = this.tags)
    (hrn : r.roleName = pr.roleName) :
    shouldDeploy this (some p) = Except.ok Decision.noOp := by
  have hcfg : currentConfigOf this = prevConfigOf p := by
    simp [currentConfigOf, prevConfigOf, h1, h2, h3, h4, h5, h6, h7, h8, h9]
  have hcond1 : ¬ (p.functionName ≠ (currentConfigOf this).functionName) := by
    show ¬ (p.functionName ≠ this.functionName)
    rw [h1]
    exact fun h => h rfl
  have hcc : configChanged this (some p) = false := by
    simp [configChanged, hcfg]
  have hrc : (r.roleName != pr.roleName) = false := by
    simp [hrn]
  simp only [shouldDeploy, roleChanged, hc, hp, Bind.bind, Except.bind]
  rw [if_neg hcond1, if_neg]
  · rfl
  · rw [hcc, hrc]
    simp

/-! The claims. -/

/-- C1: if a prior instance exists and its function name differs from the
current one, `shouldDeploy` returns Replace, whatever the other fields and
the roles are (both roles present, as `roleChanged` is evaluated first). -/
theorem shouldDeploy_name_change_replace (this : Instance) (p : PrevInstance) (r pr : Role)
    (hc : this.role = some r) (hp : p.role = some pr)
    (hn : p.functionName ≠ this.functionName) :
    shouldDeploy this (some p) = Except.ok Decision.replace := by
  simp only [shouldDeploy, roleChanged, hc, hp, Bind.bind, Except.bind]
  rw [if_pos]
  · rfl
  · exact hn

/-- Witness for C1: concrete pair with differing names (and also differing
memory size and role identifiers) decides Replace. -/
theorem shouldDeploy_name_change_replace_witness :
    shouldDeploy inst0 (some prevB) = Except.ok Decision.replace :=
  shouldDeploy_name_change_replace inst0 prevB roleA roleA2 rfl rfl (by decide)

/-- C2: with a prior instance whose nine normalized fields all equal the
current ones and whose role name equals the current role name,
`shouldDeploy` falls through: NoOp, no remote call. -/
theorem shouldDeploy_noop_when_unchanged (this : Instance) (p : PrevInstance) (r pr : Role)
    (hc : this.role = some r) (hp : p.role = some pr)
    (h1 : p.functionName = this.functionName)
    (h2 : p.functionDescription = this.functionDescription)
    (h3 : p.handler = this.handler)
    (h4 : p.code = this.code)
    (h5 : p.runtime = this.runtime)
    (h6 : p.memorySize = this.memorySize)
    (h7 : p.timeout = this.timeout)
    (h8 : p.hash = this.hash)
    (h9 : p.tags = this.tags)
    (hrn : r.roleName = pr.roleName) :
    shouldDeploy this (some p) = Except.ok Decision.noOp :=
  shouldDeploy_noop_of_equal this p r pr hc hp h1 h2 h3 h4 h5 h6 h7 h8 h9 hrn

/-- Witness for C2: a concrete unchanged pair (the prior role even has a
different remote identifier) decides NoOp. -/
theorem shouldDeploy_noop_when_unchanged_witness :
    shouldDeploy inst0 (some prev0) = Except.ok Decision.noOp :=
  shouldDeploy_noop_when_unchanged inst0 prev0 roleA roleA2 rfl rfl
    rfl rfl rfl rfl rfl rfl rfl rfl rfl rfl

/-- C3: when the environment mapping is the only difference (all normalized
fields and the role name equal), `shouldDeploy` returns neither Deploy nor
Replace: environment variables are excluded from change detection. -/
theorem shouldDeploy_ignores_environment (this : Instance) (p : PrevInstance) (r pr : Role)
    (hc : this.role = some r) (hp : p.role = some pr)
    (h1 : p.functionName = this.functionName)
    (h2 : p.functionDescription = this.functionDescription)
    (h3 : p.handler = this.handler)
    (h4 : p.code = this.code)
    (h5 : p.runtime = this.runtime)
    (h6 : p.memorySize = this.memorySize)
    (h7 : p.timeout = this.timeout)
    (h8 : p.hash = this.hash)
    (h9 : p.tags = this.tags)
    (hrn : r.roleName = pr.roleName)
    (_henv : this.environment ≠ p.environment) :
    shouldDeploy this (some p) ≠ Except.ok Decision.deploy ∧
      shouldDeploy this (some p) ≠ Except.ok Decision.replace := by
  have h := shouldDeploy_noop_of_equal this p r pr hc hp h1 h2 h3 h4 h5 h6 h7 h8 h9 hrn
  rw [h]
  exact ⟨by simp, by simp⟩

/-- Witness for C3: a concrete pair differing only in the environment
mapping triggers neither Deploy nor Replace. -/
theorem shouldDeploy_ignores_environment_witness :
    shouldDeploy inst0 (some prevEnv) ≠ Except.ok Decision.deploy ∧
      shouldDeploy inst0 (some prevEnv) ≠ Except.ok Decision.replace :=
  shouldDeploy_ignores_environment inst0 prevEnv roleA roleA2 rfl rfl
    rfl rfl rfl rfl rfl rfl rfl rfl rfl rfl (by decide)

/-- C4: identity change is decided by comparing only the role names: with
both roles present, `roleChanged` is exactly the name comparison, so equal
names count as unchanged whatever the remote identifiers are, and differing
names count as changed. -/
theorem roleChanged_compares_names_only (this : Instance) (p : PrevInstance) (r pr : Role)
    (hc : this.role = some r) (hp : p.role = some pr) :
    roleChanged this (some p) = Except.ok (r.roleName != pr.roleName) :=
  roleChanged_ok this p r pr hc hp

/-- Witness for C4: concrete roles with equal names but different remote
identifiers count as unchanged. -/
theorem roleChanged_compares_names_only_witness :
    roleChanged inst0 (some prev0) = Except.ok false := by
  have h := roleChanged_compares_names_only inst0 prev0 roleA roleA2 rfl rfl
  simpa using h

/-- C10: `shouldDeploy` on an existing prior instance is total exactly when
the prior carries a role: with a prior role present it always returns a
decision, and with the prior role missing the unguarded
`prevInstance.role.roleName` access faults. -/
theorem shouldDeploy_requires_prior_role (this : Instance) (p : PrevInstance) (r : Role)
    (hc : this.role = some r) :
    (p.role = none →
      shouldDeploy this (some p) = Except.error "TypeError: roleName of undefined") ∧
    (∀ pr, p.role = some pr → ∃ d, shouldDeploy this (some p) = Except.ok d) := by
  constructor
  · intro hnone
    simp [shouldDeploy, roleChanged, hc, hnone, Bind.bind, Except.bind]
  · intro pr hpr
    simp only [shouldDeploy, roleChanged, hc, hpr, Bind.bind, Except.bind]
    split
    · exact ⟨Decision.replace, rfl⟩
    · split
      · exact ⟨Decision.deploy, rfl⟩
      · exact ⟨Decision.noOp, rfl⟩

/-- Witness for C10: on a concrete prior with no recorded role,
`shouldDeploy` faults instead of deciding. -/
theorem shouldDeploy_requires_prior_role_witness :
    shouldDeploy inst0 (some prevNoRole) = Except.error "TypeError: roleName of undefined" :=
  (shouldDeploy_requires_prior_role inst0 prevNoRole roleA rfl).1 rfl

/-! Helper lemmas for the deploy driver. -/

/-- Packing does not touch the role field. -/
theorem packedOf_role (fs : FileSystem) (this : Instance) :
    (packedOf fs this).role = this.role := rfl

/-- `createLambda` on an instance with a role: the call trace and the
returned arn. -/
theorem createLambda_ok (L : Lambda) (this : Instance) (r : Role)
    (hr : this.role = some r) :
    createLambda L this =
      Except.ok ([LambdaCall.createFunction (createParamsOf this r)],
        L.createFunctionArn (createParamsOf this r)) := by
  simp [createLambda, hr]

/-- `updateLambda` on an instance with a role: the call trace and the
returned arn. -/
theorem updateLambda_ok (L : Lambda) (this : Instance) (r : Role)
    (hr : this.role = some r) :
    updateLambda L this =
      Except.ok
        ([LambdaCall.updateFunctionCode (updateCodeParamsOf this),
          LambdaCall.updateFunctionConfiguration (updateConfigParamsOf this r)],
         L.updateFunctionConfigurationArn (updateConfigParamsOf this r)) := by
  simp [updateLambda, hr]

/-- `deploy` with no prior instance: the create branch, fully evaluated. -/
theorem deploy_none_eq (L : Lambda) (fs : FileSystem) (this : Instance) (r : Role)
    (hr : this.role = some r) :
    deploy L fs this none =
      Except.ok
        ({ packedOf fs this with
            arn := some (L.createFunctionArn (createParamsOf (packedOf fs this) r)) },
         [LambdaCall.createFunction (createParamsOf (packedOf fs this) r)]) := by
  have hr2 : (packedOf fs this).role = some r := by rw [packedOf_role, hr]
  simp [deploy, createLambda_ok L (packedOf fs this) r hr2, Bind.bind, Except.bind]
  rfl

/-- `deploy` with a prior instance of a different name: the create branch,
fully evaluated. -/
theorem deploy_rename_eq (L : Lambda) (fs : FileSystem) (this : Instance)
    (p : PrevInstance) (r : Role) (hr : this.role = some r)
    (hne : this.functionName ≠ p.functionName) :
    deploy L fs this (some p) =
      Except.ok
        ({ packedOf fs this with
            arn := some (L.createFunctionArn (createParamsOf (packedOf fs this) r)) },
         [LambdaCall.createFunction (createParamsOf (packedOf fs this) r)]) := by
  have hr2 : (packedOf fs this).role = some r := by rw [packedOf_role, hr]
  simp only [deploy]
  rw [if_pos hne]
  simp [createLambda_ok L (packedOf fs this) r hr2, Bind.bind, Except.bind]
  rfl

/-- `deploy` with a prior instance of the same name: the update branch,
fully evaluated. -/
theorem deploy_update_eq (L : Lambda) (fs : FileSystem) (this : Instance)
    (p : PrevInstance) (r : Role) (hr : this.role = some r)
    (heq : this.functionName = p.functionName) :
    deploy L fs this (some p) =
      Except.ok
        ({ packedOf fs this with
            arn := some (L.updateFunctionConfigurationArn
              (updateConfigParamsOf (packedOf fs this) r)) },
         [LambdaCall.updateFunctionCode (updateCodeParamsOf (packedOf fs this)),
          LambdaCall.updateFunctionConfiguration (updateConfigParamsOf (packedOf fs this) r)]) := by
  have hr2 : (packedOf fs this).role = some r := by rw [packedOf_role, hr]
  simp only [deploy]
  rw [if_neg (fun h => h heq)]
  simp [updateLambda_ok L (packedOf fs this) r hr2, Bind.bind, Except.bind]
  rfl

/-- C5: with no prior instance or a changed name, `deploy` issues exactly
one `createFunction` call and no update calls; otherwise it issues
`updateFunctionCode` strictly before `updateFunctionConfiguration`, both
against the current function name, and no create call. -/
theorem deploy_branch_calls (L : Lambda) (fs : FileSystem) (this : Instance)
    (prev : Option PrevInstance) (r : Role) (hr : this.role = some r) :
    ((prev = none ∨ ∃ p, prev = some p ∧ this.functionName ≠ p.functionName) →
      ∃ inst cp, deploy L fs this prev =
        Except.ok (inst, [LambdaCall.createFunction cp])) ∧
    (∀ p, prev = some p → this.functionName = p.functionName →
      ∃ inst ccp cfp,
        deploy L fs this prev =
          Except.ok (inst,
            [LambdaCall.updateFunctionCode ccp,
             LambdaCall.updateFunctionConfiguration cfp]) ∧
        ccp.functionName = this.functionName ∧
        cfp.functionName = this.functionName) := by
  constructor
  · rintro (rfl | ⟨p, rfl, hne⟩)
    · exact ⟨_, _, deploy_none_eq L fs this r hr⟩
    · exact ⟨_, _, deploy_rename_eq L fs this p r hr hne⟩
  · rintro p rfl heq
    exact ⟨_, _, _, deploy_update_eq L fs this p r hr heq, rfl, rfl⟩

/-- Witness for C5: on a concrete unchanged-name pair, `deploy` issues the
code update strictly before the configuration update, both against the
current name. -/
theorem deploy_branch_calls_witness :
    ∃ inst ccp cfp,
      deploy lambdaOk fs0 inst0 (some prev0) =
        Except.ok (inst,
          [LambdaCall.updateFunctionCode ccp,
           LambdaCall.updateFunctionConfiguration cfp]) ∧
      ccp.functionName = inst0.functionName ∧
      cfp.functionName = inst0.functionName :=
  (deploy_branch_calls lambdaOk fs0 inst0 (some prev0) roleA rfl).2 prev0 rfl rfl

/-- C6: `deploy` stores as the instance's remote identifier exactly the
`FunctionArn` produced by whichever call executed: the create call's on the
create branch, the configuration update call's on the update branch; `getId`
then exposes it. -/
theorem deploy_returns_executed_arn (L : Lambda) (fs : FileSystem) (this : Instance)
    (prev : Option PrevInstance) (r : Role) (hr : this.role = some r) :
    ((prev = none ∨ ∃ p, prev = some p ∧ this.functionName ≠ p.functionName) →
      ∃ inst cp, deploy L fs this prev =
        Except.ok (inst, [LambdaCall.createFunction cp]) ∧
        getId inst = some (L.createFunctionArn cp)) ∧
    (∀ p, prev = some p → this.functionName = p.functionName →
      ∃ inst ccp cfp,
        deploy L fs this prev =
          Except.ok (inst,
            [LambdaCall.updateFunctionCode ccp,
             LambdaCall.updateFunctionConfiguration cfp]) ∧
        getId inst = some (L.updateFunctionConfigurationArn cfp)) := by
  constructor
  · rintro (rfl | ⟨p, rfl, hne⟩)
    · exact ⟨_, _, deploy_none_eq L fs this r hr, rfl⟩
    · exact ⟨_, _, deploy_rename_eq L fs this p r hr hne, rfl⟩
  · rintro p rfl heq
    exact ⟨_, _, _, deploy_update_eq L fs this p r hr heq, rfl⟩

/-- Witness for C6: with no prior instance, the concrete deploy returns the
arn assigned by the create call. -/
theorem deploy_returns_executed_arn_witness :
    ∃ inst cp, deploy lambdaOk fs0 inst0 none =
      Except.ok (inst, [LambdaCall.createFunction cp]) ∧
      getId inst = some (lambdaOk.createFunctionArn cp) :=
  (deploy_returns_executed_arn lambdaOk fs0 inst0 none roleA rfl).1 (Or.inl rfl)

/-- C7: `remove` completes without error exactly when the delete call
succeeds or fails with a message containing "Function not found"; any other
failure is wrapped and re-raised. -/
theorem remove_ok_iff (L : Lambda) (this : Instance) :
    (remove L this = Except.ok () ↔
      (L.deleteFunctionResult this.functionName = Except.ok () ∨
       ∃ msg, L.deleteFunctionResult this.functionName = Except.error msg ∧
         containsSub "Function not found" msg = true)) ∧
    (∀ msg, L.deleteFunctionResult this.functionName = Except.error msg →
      containsSub "Function not found" msg = false →
      remove L this = Except.error ("Error: " ++ msg)) := by
  constructor
  · constructor
    · intro h
      rcases hdel : L.deleteFunctionResult this.functionName with msg | u
      · right
        refine ⟨msg, rfl, ?_⟩
        by_contra hnot
        rw [Bool.not_eq_true] at hnot
        simp [remove, deleteLambda, hdel, hnot] at h
      · left
        cases u
        rfl
    · rintro (hok | ⟨msg, herr, hsub⟩)
      · simp [remove, deleteLambda, hok]
      · simp [remove, deleteLambda, herr, hsub]
  · intro msg herr hsub
    simp [remove, deleteLambda, herr, hsub]

/-- Witness for C7: a concrete not-found failure is swallowed, and a
concrete unrelated failure is wrapped and re-raised. -/
theorem remove_ok_iff_witness :
    remove lambdaNotFound inst0 = Except.ok () ∧
      remove lambdaDenied inst0 = Except.error ("Error: " ++ "AccessDenied") :=
  ⟨(remove_ok_iff lambdaNotFound inst0).1.2
      (Or.inr ⟨"ResourceNotFoundException: Function not found: fn-a", rfl, by decide⟩),
   (remove_ok_iff lambdaDenied inst0).2 "AccessDenied" rfl (by decide)⟩

/-- C8: the fingerprint is recomputed by `construct` from the current code
location (with the dependency-cache exclusion); `hydrate` restores only the
remote identifier from the prior instance and leaves the fingerprint (and
every other field) untouched. -/
theorem fingerprint_recomputed_not_trusted (fs : FileSystem) (inputs : Inputs)
    (inst : Instance) (prev : PrevInstance) :
    (construct fs inputs).hash =
      hashElement fs (folderToHash inputs.code) ["node_modules"] ∧
    (hydrate inst prev).hash = inst.hash ∧
    (hydrate inst prev).arn = some prev.arn ∧
    (hydrate inst prev).code = inst.code :=
  ⟨rfl, rfl, rfl, rfl⟩

/-- C9 counterexample: on a concrete directory holding a file inside
`node_modules`, the fingerprint computed by `construct` ignores that file,
but the archive produced by `pack` contains it — the packaging side of the
claimed exclusion does not happen. -/
theorem pack_keeps_node_modules_cex :
    ((construct fs0 inputs0).hash.filter
        (fun f => f.dirs.contains "node_modules")) = [] ∧
    ((pack fs0 inst0).files.filter
        (fun f => f.dirs.contains "node_modules")) =
      [{ dirs := ["node_modules", "dep"], name := "d.js", content := "dep" }] := by
  constructor
  · rfl
  · rfl

/-- C9 amended: the dependency-cache exclusion applies to the fingerprint
computation only — no file below a `node_modules` folder enters the hash —
while the packaging call forwards every file of the input directory to the
archiver without any exclusion. -/
theorem packager_exclusion_fingerprint_only (fs : FileSystem) (inputs : Inputs)
    (dir : String) (shims : List String) :
    ((construct fs inputs).hash.all
        (fun f => !(f.dirs.contains "node_modules"))) = true ∧
    (packDir fs dir shims).files = fs dir := by
  refine ⟨?_, rfl⟩
  rw [List.all_eq_true]
  intro f hf
  rw [construct] at hf
  simp only [hashElement, List.mem_filter] at hf
  have h := hf.2
  rw [List.all_eq_true] at h
  simp only [Bool.not_eq_true']
  by_contra hcontra
  rw [Bool.not_eq_false] at hcontra
  have := h _ (List.mem_of_elem_eq_true hcontra)
  simp at this

end AwsLambda
